import Mathlib

/-!
Verification of the EMLO crawler (src/emlo_crawler/crawler.py).

The development shallowly embeds the crawler: HTML rows become explicit
structures of cell texts and link targets, Python exceptions become the
`Except PyErr` monad, the mutable result-row list of `parse_results_rows`
is modelled by returning the final state of the list alongside the result,
and the network is abstracted as a function from a start offset to the
parsed page data (`total_results` and `parsed_results`), exactly the
dictionary produced by `parse_results_page` and consumed by the driver
loop in `crawl_collection`.  The unbounded `while` loop of
`crawl_collection` is embedded with explicit fuel (`crawlLoop`), together
with an unbounded iteration function (`crawlIter`) describing the state
of the accumulator after each iteration.
-/

/-- Python exception kinds raised by the crawler code. -/
inductive PyErr where
  | valueError
  | keyError
  | indexError
  | typeError
  | requestException
  | assertionError
deriving DecidableEq, Repr

/-- Turn an optional value into an `Except`, raising `e` on `none`
(models a Python lookup or index raising an exception). -/
def orRaise (o : Option α) (e : PyErr) : Except PyErr α :=
  match o with
  | some a => Except.ok a
  | none => Except.error e

/-- Whitespace as stripped by the Python str.strip method. -/
def pyIsSpace (c : Char) : Bool :=
  c == ' ' || c == '\t' || c == '\n' || c == '\r' || c == '\x0b' || c == '\x0c'

/-- The Python str.strip method on a character list: drop whitespace
from the front and from the back. -/
def pyStrip (l : List Char) : List Char :=
  ((l.dropWhile pyIsSpace).reverse.dropWhile pyIsSpace).reverse

/-- Value of a nonempty all-digit character list. -/
def pyDigits (l : List Char) : Option Nat :=
  if l ≠ [] ∧ l.all Char.isDigit then
    some (l.foldl (fun a c => a * 10 + (c.toNat - 48)) 0)
  else
    none

/-- The Python int constructor on strings: strip whitespace, allow one
leading sign, then require a nonempty digit sequence; `none` models a
raised ValueError. -/
def pyInt (s : String) : Option Int :=
  match pyStrip s.data with
  | '+' :: rest => (pyDigits rest).map Int.ofNat
  | '-' :: rest => (pyDigits rest).map (fun n => -(n : Int))
  | l => (pyDigits l).map Int.ofNat

/-- The Python str.split method with a one-character separator, on the
character list of the string: splits at every occurrence and keeps
empty pieces, so the result is always nonempty. -/
def splitChar (sep : Char) : List Char → List (List Char)
  | [] => [[]]
  | c :: rest =>
    match splitChar sep rest with
    | [] => [[c]]
    | h :: t => if c == sep then [] :: h :: t else (c :: h) :: t

/-- The Python str.split method on strings, one-character separator. -/
def pySplit (s : String) (sep : Char) : List String :=
  (splitChar sep s.data).map (fun l => ⟨l⟩)

/-- Python dict lookup on an insertion-ordered association list: the
most recent binding of a key wins. -/
def dictGet (d : List (String × String)) (k : String) : Option String :=
  (d.reverse.find? (fun p => p.1 == k)).map (fun p => p.2)

/-- Python list item assignment `l[i] = v`: raises IndexError when `i`
is out of range. -/
def pySetItem (l : List String) (i : Nat) (v : String) : Except PyErr (List String) :=
  if i < l.length then Except.ok (l.set i v) else Except.error PyErr.indexError

/-- One HTML table cell: its text content and the href of the first
embedded link, when a link with an href is present. -/
structure Cell where
  text : String
  href : Option String := none
deriving DecidableEq, Repr, Inhabited

/-- One HTML table row of the results table: its header cells (th) and
its data cells (td). -/
structure Row where
  ths : List String := []
  tds : List Cell := []
deriving DecidableEq, Repr, Inhabited

/-- An HTTP response: status code and raw body. -/
structure Response where
  status_code : Nat
  content : String
deriving DecidableEq, Repr

/-- A parsed page; parsing itself is abstracted as wrapping the body. -/
structure BeautifulSoup where
  content : String
deriving DecidableEq, Repr

/-- get_results_page: raise RequestException unless the status is 200,
otherwise return the parsed page.  The single blocking retrieval of
get_wait_url is the `response` argument; no retry is performed. -/
def get_results_page (response : Response) : Except PyErr BeautifulSoup :=
  if response.status_code ≠ 200 then
    Except.error PyErr.requestException
  else
    Except.ok ⟨response.content⟩

/-- clean_cell_content: cell.text.replace(bullet, empty).strip(). -/
def clean_cell_content (s : String) : String :=
  ⟨pyStrip (s.data.filter (fun c => c != '•'))⟩

/-- parse_results_header: clean every th text, then overwrite entries 0
and 1 with the fixed labels Result_num and Doc_type (each overwrite
raises IndexError when the position does not exist). -/
def parse_results_header (header_row : Row) : Except PyErr (List String) := do
  let headers := header_row.ths.map clean_cell_content
  let headers ← pySetItem headers 0 "Result_num"
  let headers ← pySetItem headers 1 "Doc_type"
  pure headers

/-- One extracted record (class EMLODoc after set_properties). -/
structure EMLODoc where
  collection_name : String
  id : String
  result_num : Int
  type : String
  date : String
  author : String
  origin : String
  addressee : String
  destination : String
  repository : String
deriving DecidableEq, Repr

/-- EMLODoc.set_properties: read each schema field from the row dict
(KeyError when absent) and parse the Result_num field as an integer
(ValueError when unparsable). -/
def set_properties (collection_name : String) (doc : List (String × String)) :
    Except PyErr EMLODoc := do
  let rn ← orRaise (dictGet doc "Result_num") PyErr.keyError
  let result_num ← orRaise (pyInt rn) PyErr.valueError
  let i ← orRaise (dictGet doc "doc_id") PyErr.keyError
  let ty ← orRaise (dictGet doc "Doc_type") PyErr.keyError
  let date ← orRaise (dictGet doc "Date") PyErr.keyError
  let author ← orRaise (dictGet doc "Author") PyErr.keyError
  let origin ← orRaise (dictGet doc "Origin") PyErr.keyError
  let addressee ← orRaise (dictGet doc "Addressee") PyErr.keyError
  let destination ← orRaise (dictGet doc "Destination") PyErr.keyError
  let repository ← orRaise (dictGet doc "Repositories & Versions") PyErr.keyError
  pure {
    collection_name := collection_name
    id := i
    result_num := result_num
    type := ty
    date := date
    author := author
    origin := origin
    addressee := addressee
    destination := destination
    repository := repository
  }

/-- get_result_identifier: take the link of the second td cell, cut the
href at the first question mark, split the rest on slashes, and return
the component at index 3; every failing step raises. -/
def get_result_identifier (results_row : Row) : Except PyErr String := do
  let link_cell ← orRaise (results_row.tds.get? 1) PyErr.indexError
  let url ← orRaise link_cell.href PyErr.typeError
  orRaise ((pySplit ((pySplit url '?').headD "") '/').get? 3) PyErr.indexError

/-- The dict comprehension of make_emlo_doc: pair every header with the
cell text at its position; IndexError when a header has no cell. -/
def buildDoc (headers cells : List String) : Except PyErr (List (String × String)) :=
  if headers.length ≤ cells.length then
    Except.ok (headers.zip cells)
  else
    Except.error PyErr.indexError

/-- EMLOCrawler.make_emlo_doc: clean the td cell texts, build the
header-to-cell dict, add the extracted doc_id, and set the record
properties. -/
def make_emlo_doc (collection_name : String) (results_row : Row)
    (headers : List String) : Except PyErr EMLODoc := do
  let cells := results_row.tds.map (fun td => clean_cell_content td.text)
  let doc ← buildDoc headers cells
  let did ← get_result_identifier results_row
  let doc := doc ++ [("doc_id", did)]
  set_properties collection_name doc

/-- EMLOCrawler.parse_results_rows: pop the first row (mutating the
argument list, whose final state is the second component), parse it as
the header, and turn every remaining row into a record.  The list is
popped before any parsing, so the caller sees the shortened list even
when a later step raises. -/
def parse_results_rows (collection_name : String) (results_rows : List Row) :
    Except PyErr (List EMLODoc) × List Row :=
  match results_rows with
  | [] => (Except.error PyErr.indexError, [])
  | header_row :: rest =>
    ((do
      let headers ← parse_results_header header_row
      rest.mapM (fun r => make_emlo_doc collection_name r headers)), rest)

/-- EMLOCrawler state: base url plus the optional registered collection. -/
structure EMLOCrawler where
  base_url : String := "http://emlo.bodleian.ox.ac.uk/forms/advanced"
  collection_name : Option String := none
  search_name : Option String := none
deriving DecidableEq, Repr

/-- EMLOCrawler.make_results_page_url: assert that a collection is
registered, then append the query string with the search token and the
start offset. -/
def make_results_page_url (c : EMLOCrawler) (start_num : Nat) : Except PyErr String :=
  match c.collection_name, c.search_name with
  | some _, some sn =>
    Except.ok (c.base_url ++ "?col_cat=" ++ sn ++ "&start=" ++ toString start_num)
  | _, _ => Except.error PyErr.assertionError

/-- The dictionary returned by parse_results_page for one page: the
reported total and the records extracted from the page. -/
structure PageResult where
  total_results : Nat
  parsed_results : List EMLODoc
deriving DecidableEq, Repr

/-- One iteration of the crawl_collection loop body: fetch and parse
the page at the start offset equal to the current accumulated count,
and append its records. -/
def crawlStep (server : Nat → PageResult) (emlo_docs : List EMLODoc) : List EMLODoc :=
  emlo_docs ++ (server emlo_docs.length).parsed_results

/-- The accumulator of crawl_collection after n loop iterations, were
the loop run without its stopping check. -/
def crawlIter (server : Nat → PageResult) : Nat → List EMLODoc
  | 0 => []
  | n + 1 => crawlStep server (crawlIter server n)

/-- The stopping check of crawl_collection holds at iteration n: after
appending the page fetched at the current count, the accumulated count
reaches the total reported by that page. -/
def stopsAt (server : Nat → PageResult) (n : Nat) : Prop :=
  (server (crawlIter server n).length).total_results ≤ (crawlIter server (n + 1)).length

instance (server : Nat → PageResult) (n : Nat) : Decidable (stopsAt server n) :=
  inferInstanceAs (Decidable (_ ≤ _))

/-- The while loop of crawl_collection with explicit fuel: each pass
computes the start offset as the accumulated count, fetches and parses
that page, appends its records, and stops when the accumulated count
reaches the total reported by the page; `none` means the fuel ran out
before the loop finished. -/
def crawlLoop (server : Nat → PageResult) : Nat → List EMLODoc → Option (List EMLODoc)
  | 0, _ => none
  | fuel + 1, emlo_docs =>
    let start_num := emlo_docs.length
    let results_data := server start_num
    let new_docs := emlo_docs ++ results_data.parsed_results
    if results_data.total_results ≤ new_docs.length then
      some new_docs
    else
      crawlLoop server fuel new_docs

/-- EMLOCrawler.crawl_collection: run the pagination loop from the
empty accumulator. -/
def crawl_collection (server : Nat → PageResult) (fuel : Nat) : Option (List EMLODoc) :=
  crawlLoop server fuel []

/-! Concrete fixtures used by the witnesses and counterexamples. -/

/-- A sample extracted record. -/
def dummyDoc : EMLODoc :=
  { collection_name := "c", id := "DOC123", result_num := 1, type := "letter",
    date := "1600", author := "A", origin := "O", addressee := "B",
    destination := "D", repository := "R" }

/-- A sample header row of the results table. -/
def stdHeaderRow : Row :=
  { ths := ["num", "type", "Date", "Author", "Origin", "Addressee",
            "Destination", "Repositories & Versions"] }

/-- A sample data row that parses into dummyDoc. -/
def goodDataRow : Row :=
  { tds := [⟨"1", none⟩, ⟨"letter", some "/path/collection/DOC123/view?x=1"⟩,
            ⟨"1600", none⟩, ⟨"A", none⟩, ⟨"O", none⟩, ⟨"B", none⟩,
            ⟨"D", none⟩, ⟨"R", none⟩] }

/-- A data row whose Result_num cell text is not an integer. -/
def badDataRow : Row :=
  { tds := [⟨"abc", none⟩, ⟨"letter", some "/path/collection/DOC123/view?x=1"⟩,
            ⟨"1600", none⟩, ⟨"A", none⟩, ⟨"O", none⟩, ⟨"B", none⟩,
            ⟨"D", none⟩, ⟨"R", none⟩] }

/-- A server whose single page reports total 2 and carries exactly the 2
records, every later page being empty. -/
def exactServer : Nat → PageResult :=
  fun s => ⟨2, if s = 0 then [dummyDoc, dummyDoc] else []⟩

/-- A server reporting total 1 but delivering 2 records on every page. -/
def overshootServer : Nat → PageResult :=
  fun _ => ⟨1, [dummyDoc, dummyDoc]⟩

/-- A server reporting total 1 but always delivering an empty page. -/
def emptyPagesServer : Nat → PageResult :=
  fun _ => ⟨1, []⟩

/-- A server reporting total 12, with 10 records on the page at offset 0
and 2 records on the page at offset 10. -/
def twoPageServer : Nat → PageResult :=
  fun s =>
    if s = 0 then ⟨12, List.replicate 10 dummyDoc⟩
    else if s = 10 then ⟨12, List.replicate 2 dummyDoc⟩
    else ⟨12, []⟩

/-! Helper lemmas about the pagination driver. -/

/-- Each iteration fetches the page at the start offset equal to the
current accumulated count and appends its records. -/
theorem crawlIter_succ (server : Nat → PageResult) (n : Nat) :
    crawlIter server (n + 1) =
      crawlIter server n ++ (server (crawlIter server n).length).parsed_results := rfl

/-- The accumulated count never decreases from one iteration to the next. -/
theorem crawlIter_length_mono (server : Nat → PageResult) (n : Nat) :
    (crawlIter server n).length ≤ (crawlIter server (n + 1)).length := by
  rw [crawlIter_succ, List.length_append]
  exact Nat.le_add_right _ _

/-- When every page carries at most the records still missing from the
reported total, the accumulated count never exceeds that total. -/
theorem crawlIter_length_le_total (server : Nat → PageResult) (T : Nat)
    (hno : ∀ s, (server s).parsed_results.length ≤ T - s) :
    ∀ n, (crawlIter server n).length ≤ T := by
  intro n
  induction n with
  | zero => simp [crawlIter]
  | succ k ih =>
    have hp := hno (crawlIter server k).length
    rw [crawlIter_succ, List.length_append]
    omega

/-- A run of the fueled loop started at iteration k finishes exactly at
the first iteration from k on where the stopping check holds, and
returns the accumulator of that iteration. -/
theorem crawlLoop_sound (server : Nat → PageResult) :
    ∀ (fuel k : Nat) (docs : List EMLODoc),
      crawlLoop server fuel (crawlIter server k) = some docs →
      ∃ n, k ≤ n ∧ (∀ m, k ≤ m → m < n → ¬ stopsAt server m) ∧ stopsAt server n ∧
        docs = crawlIter server (n + 1) := by
  intro fuel
  induction fuel with
  | zero =>
    intro k docs h
    simp [crawlLoop] at h
  | succ f ih =>
    intro k docs h
    simp only [crawlLoop] at h
    by_cases hs : stopsAt server k
    · have hs' : (server (crawlIter server k).length).total_results ≤
          (crawlIter server k ++ (server (crawlIter server k).length).parsed_results).length := hs
      rw [if_pos hs'] at h
      exact ⟨k, Nat.le_refl k, fun m h1 h2 => absurd h1 (Nat.not_le.mpr h2),
        hs, (Option.some.inj h).symm⟩
    · have hs' : ¬ (server (crawlIter server k).length).total_results ≤
          (crawlIter server k ++ (server (crawlIter server k).length).parsed_results).length := hs
      rw [if_neg hs'] at h
      have h' : crawlLoop server f (crawlIter server (k + 1)) = some docs := h
      obtain ⟨n, hkn, hpre, hstop, hdocs⟩ := ih (k + 1) docs h'
      refine ⟨n, Nat.le_of_succ_le hkn, ?_, hstop, hdocs⟩
      intro m h1 h2
      rcases Nat.eq_or_lt_of_le h1 with heq | hlt
      · exact heq ▸ hs
      · exact hpre m hlt h2

/-- Claim C1 (amended): for every crawl in which each fetched page
reports the same total, a finishing run of crawl_collection returns a
list of length at least that total, the accumulated count is
monotonically non-decreasing across iterations, the loop terminates
exactly on the first iteration where the accumulated count is at least
the reported total, and the final length equals the total whenever
every page carries at most the records still missing from it. -/
theorem crawl_collection_same_total (server : Nat → PageResult) (T fuel : Nat)
    (docs : List EMLODoc)
    (hT : ∀ s, (server s).total_results = T)
    (h : crawl_collection server fuel = some docs) :
    T ≤ docs.length
    ∧ (∀ n, (crawlIter server n).length ≤ (crawlIter server (n + 1)).length)
    ∧ (∃ n, T ≤ (crawlIter server (n + 1)).length
        ∧ (∀ m, m < n → ¬ T ≤ (crawlIter server (m + 1)).length)
        ∧ docs = crawlIter server (n + 1))
    ∧ ((∀ s, (server s).parsed_results.length ≤ T - s) → docs.length = T) := by
  have h0 : crawlLoop server fuel (crawlIter server 0) = some docs := h
  obtain ⟨n, _, hpre, hstop, hdocs⟩ := crawlLoop_sound server fuel 0 docs h0
  have hstopT : ∀ m, (stopsAt server m ↔ T ≤ (crawlIter server (m + 1)).length) := by
    intro m
    unfold stopsAt
    rw [hT]
  refine ⟨?_, crawlIter_length_mono server, ⟨n, ?_, ?_, hdocs⟩, ?_⟩
  · rw [hdocs]
    exact (hstopT n).mp hstop
  · exact (hstopT n).mp hstop
  · intro m hm hTm
    exact hpre m (Nat.zero_le m) hm ((hstopT m).mpr hTm)
  · intro hno
    have hub := crawlIter_length_le_total server T hno (n + 1)
    have hlb := (hstopT n).mp hstop
    rw [hdocs]
    omega

/-- Witness for C1 at a server whose single page at offset 0 reports
total 2 and carries exactly 2 records. -/
theorem crawl_collection_same_total_witness :
    2 ≤ ([dummyDoc, dummyDoc] : List EMLODoc).length
    ∧ ([dummyDoc, dummyDoc] : List EMLODoc).length = 2 := by
  have h := crawl_collection_same_total exactServer 2 1 [dummyDoc, dummyDoc]
    (fun s => rfl) rfl
  refine ⟨h.1, h.2.2.2 ?_⟩
  intro s
  cases s with
  | zero => simp [exactServer]
  | succ k => simp [exactServer]

/-- Counterexample for C1 as stated: a crawl in which every page
reports total 1 finishes with 2 accumulated records, because a page
delivered more records than the reported total. -/
theorem crawl_collection_same_total_cex :
    (∀ s, (overshootServer s).total_results = 1)
    ∧ crawl_collection overshootServer 1 = some [dummyDoc, dummyDoc]
    ∧ ([dummyDoc, dummyDoc] : List EMLODoc).length ≠ 1 :=
  ⟨fun _ => rfl, rfl, by decide⟩

/-- Claim C2 (amended): when each page reports the same total and every
page carries at most the records still missing from that total, the
accumulated record count never exceeds the total, after every
iteration including the final one. -/
theorem crawl_count_never_exceeds_total (server : Nat → PageResult) (T : Nat)
    (_hT : ∀ s, (server s).total_results = T)
    (hno : ∀ s, (server s).parsed_results.length ≤ T - s) :
    ∀ n, (crawlIter server n).length ≤ T :=
  crawlIter_length_le_total server T hno

/-- Witness for C2 at the exact-delivery server. -/
theorem crawl_count_never_exceeds_total_witness :
    (crawlIter exactServer 1).length ≤ 2 ∧ (crawlIter exactServer 2).length ≤ 2 := by
  have h := crawl_count_never_exceeds_total exactServer 2 (fun s => rfl) ?_
  · exact ⟨h 1, h 2⟩
  · intro s
    cases s with
    | zero => simp [exactServer]
    | succ k => simp [exactServer]

/-- Counterexample for C2 as stated: with every page reporting total 1
but the first page delivering 2 records, the accumulated count after
the first iteration (which is also the final one, since the stopping
check holds) is 2, exceeding the reported total. -/
theorem crawl_count_never_exceeds_total_cex :
    (∀ s, (overshootServer s).total_results = 1)
    ∧ stopsAt overshootServer 0
    ∧ (crawlIter overshootServer 1).length = 2
    ∧ ¬ ((crawlIter overshootServer 1).length ≤ 1) :=
  ⟨fun _ => rfl, by decide, rfl, by decide⟩

/-- Claim C3: nothing bounds the number of iterations other than the
stopping check: against a server that reports total 1 but always
returns an empty page, the stopping check never holds and the loop
exhausts any amount of fuel without returning (the code loops forever). -/
theorem crawl_collection_no_iteration_bound :
    (∀ n, ¬ stopsAt emptyPagesServer n)
    ∧ (∀ fuel, crawl_collection emptyPagesServer fuel = none) := by
  have hiter : ∀ n, crawlIter emptyPagesServer n = [] := by
    intro n
    induction n with
    | zero => rfl
    | succ k ih => rw [crawlIter_succ, ih]; rfl
  constructor
  · intro n hstop
    have h1 := hstop
    unfold stopsAt at h1
    rw [hiter (n + 1)] at h1
    simp [emptyPagesServer] at h1
  · intro fuel
    induction fuel with
    | zero => rfl
    | succ f ih =>
      show crawlLoop emptyPagesServer (f + 1) [] = none
      simp only [crawlLoop]
      rw [if_neg]
      · exact ih
      · simp [emptyPagesServer]

/-- Claim C4: every iteration fetches the page at the start offset equal
to the accumulated count; the two-page crawl reporting total 12 with 10
records at offset 0 and 2 at offset 10 returns 12 records, does not stop
after the first iteration, stops after the second, whose fetch offset is
10; and make_results_page_url embeds exactly that offset in the URL. -/
theorem crawl_collection_start_offsets :
    (∀ (server : Nat → PageResult) (n : Nat),
      crawlIter server (n + 1) =
        crawlIter server n ++ (server (crawlIter server n).length).parsed_results)
    ∧ (crawl_collection twoPageServer 2).map List.length = some 12
    ∧ (crawlIter twoPageServer 0).length = 0
    ∧ (crawlIter twoPageServer 1).length = 10
    ∧ ¬ stopsAt twoPageServer 0
    ∧ stopsAt twoPageServer 1
    ∧ make_results_page_url
        { collection_name := some "Scaliger, Joseph Justus",
          search_name := some "Scaliger%2C+Joseph+Justus" } 10
      = Except.ok
          "http://emlo.bodleian.ox.ac.uk/forms/advanced?col_cat=Scaliger%2C+Joseph+Justus&start=10" :=
  ⟨fun server n => crawlIter_succ server n, rfl, rfl, rfl, by decide, by decide, rfl⟩

/-- Reduction of the Except monad bind on a success value. -/
theorem exceptOkBind {β γ : Type} (a : β) (f : β → Except PyErr γ) :
    (Except.ok a : Except PyErr β) >>= f = f a := rfl

/-- Reduction of the Except monad bind on a raised error. -/
theorem exceptErrorBind {β γ : Type} (e : PyErr) (f : β → Except PyErr γ) :
    (Except.error e : Except PyErr β) >>= f = Except.error e := rfl

/-- The header list parsed from stdHeaderRow. -/
def stdHeaders : List String :=
  ["Result_num", "Doc_type", "Date", "Author", "Origin", "Addressee",
   "Destination", "Repositories & Versions"]

/-- Claim C5: a row whose Result_num field text does not parse as an
integer makes set_properties raise a ValueError; the error propagates
uncaught through make_emlo_doc and parse_results_rows, so no record is
produced for the row. -/
theorem set_properties_unparsable_result_num (cn : String)
    (doc : List (String × String)) (s : String)
    (h1 : dictGet doc "Result_num" = some s) (h2 : pyInt s = none) :
    set_properties cn doc = Except.error PyErr.valueError
    ∧ make_emlo_doc cn badDataRow stdHeaders = Except.error PyErr.valueError
    ∧ (parse_results_rows cn [stdHeaderRow, badDataRow]).1 = Except.error PyErr.valueError := by
  refine ⟨?_, rfl, rfl⟩
  unfold set_properties
  rw [h1]
  simp [orRaise, h2, exceptOkBind, exceptErrorBind]

/-- Witness for C5 at a dict whose Result_num entry is the text abc. -/
theorem set_properties_unparsable_result_num_witness :
    set_properties "c" [("Result_num", "abc")] = Except.error PyErr.valueError :=
  (set_properties_unparsable_result_num "c" [("Result_num", "abc")] "abc" rfl rfl).1

/-- Claim C6: get_results_page raises a RequestException for every
response whose status is not 200 (without any retry; the single
retrieval is its argument) and returns the parsed page for every
response with status 200. -/
theorem get_results_page_status (response : Response) :
    (response.status_code ≠ 200 →
      get_results_page response = Except.error PyErr.requestException)
    ∧ (response.status_code = 200 →
      get_results_page response = Except.ok ⟨response.content⟩) := by
  constructor <;> intro h <;> simp [get_results_page, h]

/-- Witness for C6 at a 404 response and at a 200 response. -/
theorem get_results_page_status_witness :
    get_results_page ⟨404, "x"⟩ = Except.error PyErr.requestException
    ∧ get_results_page ⟨200, "y"⟩ = Except.ok ⟨"y"⟩ :=
  ⟨(get_results_page_status ⟨404, "x"⟩).1 (by decide),
   (get_results_page_status ⟨200, "y"⟩).2 rfl⟩

/-- Claim C7: for every row whose second data cell holds a link,
get_result_identifier returns the component at index 3 of the href
after truncating it at the first question mark and splitting on
slashes; on the sample href it returns DOC123. -/
theorem get_result_identifier_spec (row : Row) (c : Cell) (url : String)
    (h1 : row.tds.get? 1 = some c) (h2 : c.href = some url) :
    get_result_identifier row =
      orRaise ((pySplit ((pySplit url '?').headD "") '/').get? 3) PyErr.indexError
    ∧ get_result_identifier goodDataRow = Except.ok "DOC123" := by
  constructor
  · unfold get_result_identifier
    rw [h1]
    simp [orRaise, h2, exceptOkBind]
  · rfl

/-- Witness for C7 at the sample data row. -/
theorem get_result_identifier_spec_witness :
    get_result_identifier goodDataRow = Except.ok "DOC123" :=
  (get_result_identifier_spec goodDataRow
    ⟨"letter", some "/path/collection/DOC123/view?x=1"⟩
    "/path/collection/DOC123/view?x=1" rfl rfl).2

/-- Claim C8: for every header row with at least two cells, the parsed
column list starts with Result_num and Doc_type whatever the first two
cell texts are, and continues with the cleaned remaining cell texts in
order. -/
theorem parse_results_header_forces_labels (row : Row)
    (h : 2 ≤ row.ths.length) :
    parse_results_header row =
      Except.ok ("Result_num" :: "Doc_type" :: (row.ths.drop 2).map clean_cell_content) := by
  obtain ⟨a, b, rest, hr⟩ : ∃ a b rest, row.ths = a :: b :: rest := by
    match hl : row.ths with
    | [] => rw [hl] at h; simp at h
    | [a] => rw [hl] at h; simp at h
    | a :: b :: rest => exact ⟨a, b, rest, rfl⟩
  unfold parse_results_header pySetItem
  rw [hr]
  simp only [List.map_cons, List.length_cons]
  rw [if_pos (by omega), List.set_cons_zero]
  simp only [exceptOkBind, List.length_cons]
  rw [if_pos (by omega), List.set_cons_succ, List.set_cons_zero]
  rfl

/-- Witness for C8 at a header row with three arbitrary cell texts. -/
theorem parse_results_header_forces_labels_witness :
    2 ≤ (Row.mk ["a", "b", "c"] []).ths.length
    ∧ parse_results_header (Row.mk ["a", "b", "c"] []) =
        Except.ok ["Result_num", "Doc_type", "c"] :=
  ⟨by decide, parse_results_header_forces_labels (Row.mk ["a", "b", "c"] []) (by decide)⟩

/-! Helper lemmas about stripping, for the idempotence of cell cleaning. -/

/-- The first element surviving dropWhile falsifies the predicate. -/
theorem head_false_of_dropWhile {α : Type} (p : α → Bool) (l : List α) (x : α)
    (h : (l.dropWhile p).head? = some x) : p x = false := by
  have h' := List.head?_dropWhile_not p l
  rw [h] at h'
  exact h'

/-- dropWhile leaves a list unchanged when its head falsifies the
predicate. -/
theorem dropWhile_eq_self_of_head {α : Type} (p : α → Bool) (l : List α)
    (h : ∀ x, l.head? = some x → p x = false) : l.dropWhile p = l := by
  cases l with
  | nil => rfl
  | cons a t => simp [List.dropWhile_cons, h a rfl]

/-- dropWhile is idempotent. -/
theorem dropWhile_dropWhile {α : Type} (p : α → Bool) (l : List α) :
    (l.dropWhile p).dropWhile p = l.dropWhile p :=
  dropWhile_eq_self_of_head p _ (head_false_of_dropWhile p l)

/-- When dropWhile keeps anything, the reversal of its result starts
with the same element as the reversal of the whole list. -/
theorem head_reverse_dropWhile {α : Type} (p : α → Bool) (m : List α)
    (h : m.dropWhile p ≠ []) :
    (m.dropWhile p).reverse.head? = m.reverse.head? := by
  obtain ⟨t, ht⟩ := List.dropWhile_suffix (l := m) p
  conv_rhs => rw [← ht]
  rw [List.reverse_append, List.head?_append]
  cases hh : (m.dropWhile p).reverse.head? with
  | none =>
    rw [List.head?_eq_none_iff, List.reverse_eq_nil_iff] at hh
    exact absurd hh h
  | some y => rfl

/-- Stripping leaves a list whose leading element is not whitespace. -/
theorem pyStrip_head_not_space (l : List Char) (x : Char)
    (h : (pyStrip l).head? = some x) : pyIsSpace x = false := by
  unfold pyStrip at h
  by_cases hc : (l.dropWhile pyIsSpace).reverse.dropWhile pyIsSpace = []
  · rw [hc] at h
    simp at h
  · rw [head_reverse_dropWhile pyIsSpace _ hc, List.reverse_reverse] at h
    exact head_false_of_dropWhile pyIsSpace l x h

/-- Stripping an already stripped character list changes nothing. -/
theorem pyStrip_idem (l : List Char) : pyStrip (pyStrip l) = pyStrip l := by
  have hfront : (pyStrip l).dropWhile pyIsSpace = pyStrip l :=
    dropWhile_eq_self_of_head pyIsSpace _ (pyStrip_head_not_space l)
  show (((pyStrip l).dropWhile pyIsSpace).reverse.dropWhile pyIsSpace).reverse = pyStrip l
  rw [hfront]
  show (((((l.dropWhile pyIsSpace).reverse.dropWhile pyIsSpace).reverse).reverse).dropWhile
    pyIsSpace).reverse = pyStrip l
  rw [List.reverse_reverse, dropWhile_dropWhile]
  rfl

/-- Every element kept by stripping is an element of the input. -/
theorem mem_pyStrip (l : List Char) (x : Char) (h : x ∈ pyStrip l) : x ∈ l := by
  unfold pyStrip at h
  rw [List.mem_reverse] at h
  have h1 := List.Sublist.mem h (List.dropWhile_sublist pyIsSpace)
  rw [List.mem_reverse] at h1
  exact List.Sublist.mem h1 (List.dropWhile_sublist pyIsSpace)

/-- Claim C9: cell cleaning is idempotent on every string. -/
theorem clean_cell_content_idem (s : String) :
    clean_cell_content (clean_cell_content s) = clean_cell_content s := by
  unfold clean_cell_content
  congr 1
  show pyStrip ((pyStrip (s.data.filter (fun c => c != '•'))).filter (fun c => c != '•'))
      = pyStrip (s.data.filter (fun c => c != '•'))
  have hf : (pyStrip (s.data.filter (fun c => c != '•'))).filter (fun c => c != '•')
      = pyStrip (s.data.filter (fun c => c != '•')) := by
    rw [List.filter_eq_self]
    intro a ha
    exact (List.mem_filter.mp (mem_pyStrip _ a ha)).2
  rw [hf, pyStrip_idem]

/-- A successful mapM over Except returns one output per input, in
order, each produced by the function on the corresponding input. -/
theorem mapM_except_ok {β γ : Type} (f : β → Except PyErr γ) :
    ∀ (l : List β) (ys : List γ), l.mapM f = Except.ok ys →
      ys.length = l.length
      ∧ ∀ i, (l.get? i).map f = (ys.get? i).map Except.ok := by
  intro l
  induction l with
  | nil =>
    intro ys h
    rw [List.mapM_nil] at h
    cases h
    exact ⟨rfl, fun i => rfl⟩
  | cons a t ih =>
    intro ys h
    rw [List.mapM_cons] at h
    cases hfa : f a with
    | error e => rw [hfa] at h; simp [exceptErrorBind] at h
    | ok b =>
      rw [hfa, exceptOkBind] at h
      cases hmt : t.mapM f with
      | error e => rw [hmt] at h; simp [exceptErrorBind] at h
      | ok xs =>
        rw [hmt, exceptOkBind] at h
        cases h
        obtain ⟨hlen, hget⟩ := ih xs hmt
        refine ⟨by simp [hlen], ?_⟩
        intro i
        cases i with
        | zero => simp [hfa]
        | succ j => simpa using hget j

/-- Claim C10 (amended): calling parse_results_rows on a non-empty row
list always leaves the caller's list one element shorter, its original
first element (the header row) removed; when the call returns normally,
it returns exactly one record per remaining row, in order, each built
from the corresponding row (when a row fails to parse, the call raises
instead and produces no record list, though the pop still happened). -/
theorem parse_results_rows_frame (cn : String) (rows : List Row) (h : rows ≠ []) :
    (parse_results_rows cn rows).2 = rows.tail
    ∧ (parse_results_rows cn rows).2.length + 1 = rows.length
    ∧ ∀ docs, (parse_results_rows cn rows).1 = Except.ok docs →
        docs.length = rows.tail.length
        ∧ ∃ headers, parse_results_header (rows.headD default) = Except.ok headers
          ∧ ∀ i, ((rows.tail.get? i).map (fun r => make_emlo_doc cn r headers))
              = (docs.get? i).map Except.ok := by
  match rows with
  | [] => exact absurd rfl h
  | header_row :: rest =>
    refine ⟨rfl, by simp [parse_results_rows], ?_⟩
    intro docs hdocs
    have h1 : (parse_results_rows cn (header_row :: rest)).1 =
        (do
          let headers ← parse_results_header header_row
          rest.mapM (fun r => make_emlo_doc cn r headers)) := rfl
    rw [h1] at hdocs
    cases hh : parse_results_header header_row with
    | error e => rw [hh, exceptErrorBind] at hdocs; cases hdocs
    | ok headers =>
      rw [hh, exceptOkBind] at hdocs
      obtain ⟨hlen, hget⟩ := mapM_except_ok (fun r => make_emlo_doc cn r headers) rest docs hdocs
      exact ⟨hlen, headers, hh, hget⟩

/-- Witness for C10 at a two-row list that parses successfully. -/
theorem parse_results_rows_frame_witness :
    (parse_results_rows "c" [stdHeaderRow, goodDataRow]).2 = [goodDataRow] :=
  (parse_results_rows_frame "c" [stdHeaderRow, goodDataRow] (by simp)).1

/-- Counterexample for C10 as stated: on a non-empty list whose data
row has a non-numeric Result_num cell, the call still pops the header
but raises, so the remaining row yields no record. -/
theorem parse_results_rows_frame_cex :
    ([stdHeaderRow, badDataRow] : List Row) ≠ []
    ∧ (parse_results_rows "c" [stdHeaderRow, badDataRow]).2 = [badDataRow]
    ∧ (parse_results_rows "c" [stdHeaderRow, badDataRow]).1 = Except.error PyErr.valueError
    ∧ ∀ docs, (parse_results_rows "c" [stdHeaderRow, badDataRow]).1 ≠ Except.ok docs := by
  refine ⟨by simp, rfl, rfl, ?_⟩
  intro docs hdocs
  rw [show (parse_results_rows "c" [stdHeaderRow, badDataRow]).1 =
      Except.error PyErr.valueError from rfl] at hdocs
  cases hdocs
